import Mathlib

/-!
Verification of the WTSS Python client (src/wtss/wtss.py) against its
specification.  The single source file is shallowly embedded below: Python
values that can reach the client's dynamic type checks are modelled by the
inductive `PyVal`, raised exceptions by `PyError` (exception class name plus
message), and every fallible operation returns `Except PyError`.  Floats are
modelled by `Rat`, which is exact on every decimal literal appearing in the
code and its checks.  A method that would perform a network request instead
returns the request URI it would fetch, so an `Except.error` result means the
failure happened before any request was issued.
-/

namespace Wtss

/-- A raised Python exception: the exception class name and its message. -/
structure PyError where
  typ : String
  msg : String
deriving DecidableEq, Repr

/-- Python values as far as the client's dynamic checks distinguish them:
strings, numbers, lists, tuples, dicts and None. -/
inductive PyVal where
  | pstr : String → PyVal
  | pnum : Int → PyVal
  | plist : List PyVal → PyVal
  | ptuple : List PyVal → PyVal
  | pdict : List (String × PyVal) → PyVal
  | pnone : PyVal

/-- Python truthiness, as used by the reference in statements such as
`if not attributes`. -/
def truthy : PyVal → Bool
  | .pstr s => !(s == "")
  | .pnum n => !(n == 0)
  | .plist l => !l.isEmpty
  | .ptuple l => !l.isEmpty
  | .pdict l => !l.isEmpty
  | .pnone => false

/-- Truthiness of an optional string argument (the declared shape of
start_date / end_date: a string or None). -/
def truthyOpt : Option String → Bool
  | none => false
  | some s => !(s == "")

/-- Decimal digits of a positive number, most significant first (fuel-based
so that it reduces definitionally). -/
def natToStrAux : Nat → Nat → List Char
  | 0, _ => []
  | _ + 1, 0 => []
  | fuel + 1, n => natToStrAux fuel (n / 10) ++ [Char.ofNat (48 + n % 10)]

/-- Decimal rendering of a natural number. -/
def natToStr (n : Nat) : String :=
  if n = 0 then "0" else String.mk (natToStrAux (n + 1) n)

/-- Left-pad a string with zeros to the given width. -/
def padZeros (k : Nat) (s : String) : String :=
  String.mk (List.replicate (k - s.length) (Char.ofNat 48)) ++ s

/-- The C-style percent-f formatting used by the reference for latitude and
longitude: fixed-point with six fractional digits.  Modelled on `Rat` with
rounding to nearest (ties away from zero); no value reached by the client's
range checks is a tie at the seventh decimal. -/
def formatFixed6 (q : Rat) : String :=
  let n : Nat := q.num.natAbs
  let d : Nat := q.den
  let scaled : Nat := (n * 1000000 * 2 + d) / (2 * d)
  let s := natToStr (scaled / 1000000) ++ "." ++ padZeros 6 (natToStr (scaled % 1000000))
  if q < 0 then "-" ++ s else s

/-- Python string join over a sequence: every element must be a string, else
a TypeError is raised at the offending index, exactly as in CPython. -/
def pyJoinAux (i : Nat) : List PyVal → Except PyError (List String)
  | [] => .ok []
  | .pstr s :: rest =>
    match pyJoinAux (i + 1) rest with
    | .ok ss => .ok (s :: ss)
    | .error e => .error e
  | _ :: _ => .error ⟨"TypeError", "sequence item " ++ natToStr i ++ ": expected string"⟩

/-- The comma join performed by the reference on list/tuple attributes. -/
def pyJoinStr (l : List PyVal) : Except PyError String :=
  match pyJoinAux 0 l with
  | .ok ss => .ok (String.intercalate "," ss)
  | .error e => .error e

/-- The attributes dispatch of time_series: lists and tuples are
comma-joined, strings pass through verbatim, anything else raises
ValueError, exactly as the type checks on lines 108-111 of the source. -/
def joinAttributes : PyVal → Except PyError String
  | .plist l => pyJoinStr l
  | .ptuple l => pyJoinStr l
  | .pstr s => .ok s
  | _ => .error ⟨"ValueError", "attributes must be a list, tuple or string"⟩

/-- The time_series URI without the optional date parameters. -/
def tsBase (host cv attrStr : String) (lat lon : Rat) : String :=
  host ++ "/wtss/time_series?coverage=" ++ cv ++ "&attributes=" ++ attrStr ++
    "&latitude=" ++ formatFixed6 lat ++ "&longitude=" ++ formatFixed6 lon

/-- The full time_series URI: the start/end parameters are appended verbatim
only when both dates are truthy, as on lines 122-123 of the source. -/
def tsUri (host cv attrStr : String) (lat lon : Rat) (sd ed : Option String) : String :=
  if truthyOpt sd && truthyOpt ed then
    tsBase host cv attrStr lat lon ++ "&start=" ++ sd.getD "" ++ "&end=" ++ ed.getD ""
  else tsBase host cv attrStr lat lon

/-- Embedding of wtss.time_series.  Validation happens in source order; on
success the function returns the URI it would pass to the network helper, so
an error result means no request was issued. -/
def time_series (host cv_name : String) (attributes : PyVal) (latitude longitude : Rat)
    (start_date end_date : Option String) : Except PyError String :=
  if cv_name = "" then .error ⟨"ValueError", "Missing coverage name."⟩
  else if truthy attributes = false then
    .error ⟨"ValueError", "Missing coverage attributes."⟩
  else
    match joinAttributes attributes with
    | .error e => .error e
    | .ok attrStr =>
      if latitude < -90 ∨ latitude > 90 then
        .error ⟨"ValueError", "latitude is out-of range!"⟩
      else if longitude < -180 ∨ longitude > 180 then
        .error ⟨"ValueError", "longitude is out-of range!"⟩
      else .ok (tsUri host cv_name attrStr latitude longitude start_date end_date)

/-- Embedding of wtss.describe_coverage: the URI it would fetch. -/
def describe_coverage (host cv_name : String) : String :=
  host ++ "/wtss/describe_coverage?name=" ++ cv_name

/-- Embedding of wtss.list_coverages: the URI it would fetch. -/
def list_coverages (host : String) : String :=
  host ++ "/wtss/list_coverages"

/-- First-match lookup in an association list, the model of a Python dict
subscript (JSON-decoded dicts have unique keys). -/
def lookupKey (l : List (String × PyVal)) (k : String) : Option PyVal :=
  (l.find? fun kv => kv.1 == k).map fun kv => kv.2

/-- Python subscript doc[key] with a string key: KeyError on a dict miss,
TypeError on non-dict values, as in CPython. -/
def subscriptStr (v : PyVal) (k : String) : Except PyError PyVal :=
  match v with
  | .pdict l =>
    match lookupKey l k with
    | some x => .ok x
    | none => .error ⟨"KeyError", "\x27" ++ k ++ "\x27"⟩
  | .plist _ => .error ⟨"TypeError", "list indices must be integers"⟩
  | .ptuple _ => .error ⟨"TypeError", "tuple indices must be integers"⟩
  | .pstr _ => .error ⟨"TypeError", "string indices must be integers"⟩
  | .pnum _ => .error ⟨"TypeError", "object is unsubscriptable"⟩
  | .pnone => .error ⟨"TypeError", "object is unsubscriptable"⟩

/-- Python iteration over a value, as used by the for-loop in values and the
list comprehension in timeline: lists and tuples yield their elements,
strings their characters, dicts their keys (insertion order stands in for
the dict order), anything else raises TypeError. -/
def pyIterate : PyVal → Except PyError (List PyVal)
  | .plist l => .ok l
  | .ptuple l => .ok l
  | .pstr s => .ok (s.toList.map fun c => .pstr (String.mk [c]))
  | .pdict l => .ok (l.map fun kv => .pstr kv.1)
  | _ => .error ⟨"TypeError", "object is not iterable"⟩

/-- Python == between a value and a string: true exactly on the equal
string, false on every other value (no error across types). -/
def pyEqStr (v : PyVal) (s : String) : Bool :=
  match v with
  | .pstr t => t == s
  | _ => false

/-- A calendar date, the result of datetime.strptime(...).date(). -/
structure Date where
  year : Nat
  month : Nat
  day : Nat
deriving DecidableEq, Repr

/-- Value of a decimal digit character, if it is one. -/
def digitVal (c : Char) : Option Nat :=
  if 48 ≤ c.toNat ∧ c.toNat ≤ 57 then some (c.toNat - 48) else none

/-- Four mandatory digits, as the %Y directive of strptime demands. -/
def parse4 : List Char → Option (Nat × List Char)
  | a :: b :: c :: d :: rest =>
    match digitVal a, digitVal b, digitVal c, digitVal d with
    | some x, some y, some z, some w => some (x * 1000 + y * 100 + z * 10 + w, rest)
    | _, _, _, _ => none
  | _ => none

/-- One or two digits yielding a value within bounds, preferring the
two-digit reading, as the %m and %d regular expressions of strptime do. -/
def parse2R (lo hi : Nat) : List Char → Option (Nat × List Char)
  | a :: b :: rest =>
    match digitVal a, digitVal b with
    | some x, some y =>
      let v := 10 * x + y
      if lo ≤ v ∧ v ≤ hi then some (v, rest)
      else if lo ≤ x ∧ x ≤ hi then some (x, b :: rest)
      else none
    | some x, none => if lo ≤ x ∧ x ≤ hi then some (x, b :: rest) else none
    | _, _ => none
  | [a] =>
    match digitVal a with
    | some x => if lo ≤ x ∧ x ≤ hi then some (x, []) else none
    | none => none
  | [] => none

/-- Run a strftime-style format against an input string, gathering year,
month and day; the whole input must be consumed, defaults are 1900-01-01,
and only the %Y, %m and %d directives are recognised (any other directive
never matches). -/
def runFmt : List Char → List Char → Date → Option Date
  | [], [], acc => some acc
  | [], _ :: _, _ => none
  | '%' :: 'Y' :: fr, input, acc =>
    (parse4 input).bind fun p => runFmt fr p.2 { acc with year := p.1 }
  | '%' :: 'm' :: fr, input, acc =>
    (parse2R 1 12 input).bind fun p => runFmt fr p.2 { acc with month := p.1 }
  | '%' :: 'd' :: fr, input, acc =>
    (parse2R 1 31 input).bind fun p => runFmt fr p.2 { acc with day := p.1 }
  | '%' :: _, _, _ => none
  | _ :: _, [], _ => none
  | c :: fr, i :: ir, acc => if c = i then runFmt fr ir acc else none

/-- Gregorian leap year, as datetime uses. -/
def isLeap (y : Nat) : Bool := (y % 4 == 0 && y % 100 != 0) || y % 400 == 0

/-- Length of a month, as the datetime constructor validates it. -/
def daysInMonth (y m : Nat) : Nat :=
  if m = 2 then (if isLeap y then 29 else 28)
  else if m = 4 ∨ m = 6 ∨ m = 9 ∨ m = 11 then 30
  else 31

/-- Model of datetime.strptime(s, fmt).date(), restricted to the %Y, %m and
%d directives and literal characters (the shapes this client exercises);
the datetime constructor further checks the year range and the day against
the month length. -/
def strptime (s fmt : String) : Option Date :=
  (runFmt fmt.toList s.toList ⟨1900, 1, 1⟩).bind fun r =>
    if 1 ≤ r.year ∧ r.year ≤ 9999 ∧ r.day ≤ daysInMonth r.year r.month then some r
    else none

/-- True when the format string uses only literal characters and the
directives the strptime model supports. -/
def supportedFmt : List Char → Bool
  | [] => true
  | '%' :: c :: rest => (c == 'Y' || c == 'm' || c == 'd') && supportedFmt rest
  | '%' :: [] => false
  | _ :: rest => supportedFmt rest

/-- The ValueError message strptime raises on a non-matching entry. -/
def strptimeMsg (s fmt : String) : String :=
  "time data \x27" ++ s ++ "\x27 does not match format \x27" ++ fmt ++ "\x27"

/-- The list comprehension of wtss.timeline: parse the entries left to
right, raising at the first failure. -/
def mapStrptime (fmt : String) : List PyVal → Except PyError (List Date)
  | [] => .ok []
  | .pstr s :: rest =>
    match strptime s fmt with
    | some d =>
      match mapStrptime fmt rest with
      | .ok ds => .ok (d :: ds)
      | .error e => .error e
    | none => .error ⟨"ValueError", strptimeMsg s fmt⟩
  | _ :: _ => .error ⟨"TypeError", "strptime argument must be a string"⟩

/-- Embedding of wtss.timeline (classmethod). -/
def timeline (doc : PyVal) (fmt : String) : Except PyError (List Date) :=
  match subscriptStr doc "result" with
  | .error e => .error e
  | .ok r =>
    match subscriptStr r "timeline" with
    | .error e => .error e
    | .ok tl =>
      match pyIterate tl with
      | .error e => .error e
      | .ok items => mapStrptime fmt items

/-- The for-loop of wtss.values: first record whose attribute field equals
the requested name wins; a miss raises ValueError. -/
def valuesLoop (attr_name : String) : List PyVal → Except PyError PyVal
  | [] =>
    .error ⟨"ValueError", "Time series for attribute \x27" ++ attr_name ++ "\x27 not found!"⟩
  | a :: rest =>
    match subscriptStr a "attribute" with
    | .error e => .error e
    | .ok av =>
      if pyEqStr av attr_name then subscriptStr a "values"
      else valuesLoop attr_name rest

/-- Embedding of wtss.values (classmethod). -/
def values (doc : PyVal) (attr_name : String) : Except PyError PyVal :=
  match subscriptStr doc "result" with
  | .error e => .error e
  | .ok r =>
    match subscriptStr r "attributes" with
    | .error e => .error e
    | .ok attrs =>
      match pyIterate attrs with
      | .error e => .error e
      | .ok items => valuesLoop attr_name items

/-- A time_series response document holding the given timeline entries. -/
def mkTimelineDoc (entries : List String) : PyVal :=
  .pdict [("result", .pdict [("timeline", .plist (entries.map .pstr))])]

/-- A time_series response document holding the given attribute records,
each a dict with an attribute name and a values payload. -/
def mkValuesDoc (recs : List (String × PyVal)) : PyVal :=
  .pdict [("result", .pdict [("attributes",
    .plist (recs.map fun r => .pdict [("attribute", .pstr r.1), ("values", r.2)]))])]

/-- The characters after the first occurrence of c, if any. -/
def afterChar (c : Char) : List Char → Option (List Char)
  | [] => none
  | x :: xs => if x = c then some xs else afterChar c xs

/-- Split a character list on a separator (standard splitting: n separators
give n + 1 pieces). -/
def splitOnChar (c : Char) : List Char → List (List Char)
  | [] => [[]]
  | x :: xs =>
    if x = c then [] :: splitOnChar c xs
    else
      match splitOnChar c xs with
      | [] => [[x]]
      | y :: ys => (x :: y) :: ys

/-- Split a query piece at its first equals sign into key and value. -/
def splitKV : List Char → List Char × List Char
  | [] => ([], [])
  | x :: xs =>
    if x = '=' then ([], xs)
    else
      match splitKV xs with
      | (k, v) => (x :: k, v)

/-- Value of a hexadecimal digit character, if it is one. -/
def hexVal (c : Char) : Option Nat :=
  if 48 ≤ c.toNat ∧ c.toNat ≤ 57 then some (c.toNat - 48)
  else if 65 ≤ c.toNat ∧ c.toNat ≤ 70 then some (c.toNat - 55)
  else if 97 ≤ c.toNat ∧ c.toNat ≤ 102 then some (c.toNat - 87)
  else none

/-- Standard URL query-value decoding: plus becomes space, a percent sign
followed by two hex digits becomes the encoded byte, anything else passes
through (a malformed escape is kept as-is, as common decoders do). -/
def percentPlusDecode : List Char → List Char
  | [] => []
  | '+' :: rest => ' ' :: percentPlusDecode rest
  | '%' :: a :: b :: rest =>
    match hexVal a, hexVal b with
    | some x, some y => Char.ofNat (16 * x + y) :: percentPlusDecode rest
    | _, _ => '%' :: percentPlusDecode (a :: b :: rest)
  | c :: rest => c :: percentPlusDecode rest

/-- Find the raw value of the first query pair carrying the given key. -/
def findParamValue (key : List Char) : List (List Char) → Option (List Char)
  | [] => none
  | p :: ps =>
    match splitKV p with
    | (k, v) => if k = key then some v else findParamValue key ps

/-- Standard URL query decoding of one parameter of a URI: take the part
after the first question mark, split it on ampersands into key=value
pieces, pick the first piece with the given key and decode its value.
This is the (simulated) server-side decoding the round-trip property of
the spec speaks about. -/
def decodeQueryParam (uri key : String) : Option String :=
  (afterChar '?' uri.toList).bind fun q =>
    (findParamValue key.toList (splitOnChar '&' q)).map fun v =>
      String.mk (percentPlusDecode v)

/-- The six error kinds of the taxonomy in section 7 of the spec. -/
inductive ErrorKind where
  | invalidArgument
  | networkError
  | decodeError
  | schemaError
  | parseError
  | notFound
deriving DecidableEq, Repr

/-- The Python exception class each kind surfaces as.  InvalidArgument and
NotFound come from the explicit raise sites of the source; ParseError is
the ValueError of strptime and SchemaError the KeyError of the dict
subscripts, both mirrored in the embedding above; NetworkError and
DecodeError are modelled from the behavior of the stdlib calls in
the source helper (urllib2.urlopen raises URLError, json.loads raises
ValueError on a bad body in Python 2). -/
def surfacedExcType : ErrorKind → String
  | .invalidArgument => "ValueError"
  | .networkError => "URLError"
  | .decodeError => "ValueError"
  | .schemaError => "KeyError"
  | .parseError => "ValueError"
  | .notFound => "ValueError"

example : decodeQueryParam "h/wtss/describe_coverage?name=a&b" "name" = some "a" := rfl

example : decodeQueryParam "h/wtss/describe_coverage?name=a b" "name" = some "a b" := rfl

example : decodeQueryParam "h/x?name=a%26b&k=v" "name" = some "a&b" := rfl

example : decodeQueryParam "h/x?name=a+b" "name" = some "a b" := rfl

example : strptime "2020-01-01" "%Y-%m-%d" = some ⟨2020, 1, 1⟩ := rfl

example : strptime "2020-02-30" "%Y-%m-%d" = none := rfl

example : strptime "2020-1-7" "%Y-%m-%d" = some ⟨2020, 1, 7⟩ := rfl

example : strptime "2020-13-01" "%Y-%m-%d" = none := rfl

example : timeline (mkTimelineDoc ["2020-01-01", "2020-01-17"]) "%Y-%m-%d" =
    .ok [⟨2020, 1, 1⟩, ⟨2020, 1, 17⟩] := rfl

example : timeline (mkTimelineDoc ["2020-01-01", "bad"]) "%Y-%m-%d" =
    .error ⟨"ValueError", strptimeMsg "bad" "%Y-%m-%d"⟩ := rfl

example : values (mkValuesDoc [("red", .plist [.pnum 1, .pnum 2, .pnum 3])]) "red" =
    .ok (.plist [.pnum 1, .pnum 2, .pnum 3]) := rfl

example : values (mkValuesDoc [("red", .plist [.pnum 1])]) "nir" =
    .error ⟨"ValueError", "Time series for attribute \x27nir\x27 not found!"⟩ := rfl

example : values (.pdict []) "red" = .error ⟨"KeyError", "\x27result\x27"⟩ := rfl

example : time_series "h" "" (.pstr "red") 0 0 none none =
    .error ⟨"ValueError", "Missing coverage name."⟩ := rfl

example : time_series "h" "cv" (.plist []) 0 0 none none =
    .error ⟨"ValueError", "Missing coverage attributes."⟩ := rfl

example : time_series "h" "cv" (.plist [.pstr "a", .pstr "b", .pstr "c"]) 0 0 none none =
    .ok "h/wtss/time_series?coverage=cv&attributes=a,b,c&latitude=0.000000&longitude=0.000000" :=
  rfl

example : time_series "h" "cv" (.pstr "red") (-12) (-54) (some "2020-01-01") (some "2020-02-01") =
    .ok "h/wtss/time_series?coverage=cv&attributes=red&latitude=-12.000000&longitude=-54.000000&start=2020-01-01&end=2020-02-01" :=
  rfl

example : time_series "h" "cv" (.plist [.pnum 1]) 0 0 none none =
    .error ⟨"TypeError", "sequence item 0: expected string"⟩ := rfl

example : time_series "h" "cv" (.pstr "red") 91 0 none none =
    .error ⟨"ValueError", "latitude is out-of range!"⟩ := rfl

example : time_series "h" "cv" (.pstr "red") 90 (-181) none none =
    .error ⟨"ValueError", "longitude is out-of range!"⟩ := rfl

/-! ### Helper lemmas shared by the claim theorems -/

/-- Joining a list whose elements are all strings never raises and yields
exactly the element list. -/
lemma pyJoinAux_map_pstr (names : List String) : ∀ i, pyJoinAux i (names.map .pstr) = .ok names := by
  induction names with
  | nil => intro i; rfl
  | cons n ns ih => intro i; simp [pyJoinAux, ih (i + 1)]

/-- The attributes dispatch on a list of strings yields the comma join. -/
lemma joinAttributes_strs (names : List String) :
    joinAttributes (.plist (names.map .pstr)) = .ok (String.intercalate "," names) := by
  simp [joinAttributes, pyJoinStr, pyJoinAux_map_pstr]

/-- A validated call reaches the request with exactly the URI built by
tsUri from the transmitted attribute string. -/
lemma time_series_ok (host cv : String) (attrs : PyVal) (attrStr : String)
    (hcv : cv ≠ "") (ht : truthy attrs = true) (hj : joinAttributes attrs = .ok attrStr)
    (lat lon : Rat) (hlat₁ : -90 ≤ lat) (hlat₂ : lat ≤ 90)
    (hlon₁ : -180 ≤ lon) (hlon₂ : lon ≤ 180) (sd ed : Option String) :
    time_series host cv attrs lat lon sd ed = .ok (tsUri host cv attrStr lat lon sd ed) := by
  have h1 : ¬(lat < -90 ∨ lat > 90) := by rintro (h | h) <;> linarith
  have h2 : ¬(lon < -180 ∨ lon > 180) := by rintro (h | h) <;> linarith
  simp [time_series, hcv, ht, hj, h1, h2]

/-- A nonempty string attribute is truthy. -/
lemma truthy_pstr {s : String} (hs : s ≠ "") : truthy (.pstr s) = true := by
  simp [truthy, hs]

/-- A list built from a nonempty list of strings is truthy. -/
lemma truthy_plist_map {names : List String} (hn : names ≠ []) :
    truthy (.plist (names.map .pstr)) = true := by
  cases names with
  | nil => exact absurd rfl hn
  | cons n ns => simp [truthy]

/-! ### The claims -/

/-- C1: for every validated call to time_series, an attributes argument
given as an ordered sequence of strings is transmitted as the comma join of
its elements, and an attributes argument given as a string is transmitted
verbatim in the query string. -/
theorem time_series_attributes_joined (host cv : String) (names : List String)
    (lat lon : Rat) (sd ed : Option String) (hcv : cv ≠ "") (hn : names ≠ [])
    (hlat₁ : -90 ≤ lat) (hlat₂ : lat ≤ 90) (hlon₁ : -180 ≤ lon) (hlon₂ : lon ≤ 180) :
    time_series host cv (.plist (names.map .pstr)) lat lon sd ed =
      .ok (tsUri host cv (String.intercalate "," names) lat lon sd ed)
    ∧ ∀ s : String, s ≠ "" →
      time_series host cv (.pstr s) lat lon sd ed = .ok (tsUri host cv s lat lon sd ed) :=
  ⟨time_series_ok host cv _ _ hcv (truthy_plist_map hn) (joinAttributes_strs names)
      lat lon hlat₁ hlat₂ hlon₁ hlon₂ sd ed,
   fun s hs => time_series_ok host cv _ _ hcv (truthy_pstr hs) rfl
      lat lon hlat₁ hlat₂ hlon₁ hlon₂ sd ed⟩

theorem time_series_attributes_joined_witness :
    time_series "h" "cv" (.plist [.pstr "a", .pstr "b", .pstr "c"]) 0 0 none none =
      .ok (tsUri "h" "cv" "a,b,c" 0 0 none none)
    ∧ time_series "h" "cv" (.pstr "a,b,c") 0 0 none none =
      .ok (tsUri "h" "cv" "a,b,c" 0 0 none none) :=
  ⟨(time_series_attributes_joined "h" "cv" ["a", "b", "c"] 0 0 none none
      (by decide) (by decide) (by norm_num) (by norm_num) (by norm_num) (by norm_num)).1,
   (time_series_attributes_joined "h" "cv" ["a", "b", "c"] 0 0 none none
      (by decide) (by decide) (by norm_num) (by norm_num) (by norm_num) (by norm_num)).2
     "a,b,c" (by decide)⟩

/-- C2: an empty coverage name fails with ValueError "Missing coverage
name."; a nonempty coverage name with falsy (empty) attributes fails with
ValueError "Missing coverage attributes."; both results are errors, so no
request URI is produced and no network request is issued. -/
theorem time_series_missing_args (host : String) (attributes : PyVal)
    (lat lon : Rat) (sd ed : Option String) :
    (∀ cv : String, cv = "" →
      time_series host cv attributes lat lon sd ed =
        .error ⟨"ValueError", "Missing coverage name."⟩)
    ∧ ∀ cv : String, cv ≠ "" → truthy attributes = false →
      time_series host cv attributes lat lon sd ed =
        .error ⟨"ValueError", "Missing coverage attributes."⟩ := by
  constructor
  · intro cv h
    subst h
    simp [time_series]
  · intro cv h1 h2
    simp [time_series, h1, h2]

theorem time_series_missing_args_witness :
    time_series "h" "" (.plist [.pstr "red"]) 0 0 none none =
      .error ⟨"ValueError", "Missing coverage name."⟩
    ∧ time_series "h" "cv" (.plist []) 0 0 none none =
      .error ⟨"ValueError", "Missing coverage attributes."⟩ :=
  ⟨(time_series_missing_args "h" (.plist [.pstr "red"]) 0 0 none none).1 "" rfl,
   (time_series_missing_args "h" (.plist []) 0 0 none none).2 "cv" (by decide) rfl⟩

/-- C3: with the earlier validations passing, a latitude strictly outside
[-90, 90] fails with ValueError "latitude is out-of range!"; with latitude
in range, a longitude strictly outside [-180, 180] fails with ValueError
"longitude is out-of range!"; the boundary values pass both checks and the
call reaches the request. -/
theorem time_series_latlon_range (host cv a : String) (hcv : cv ≠ "") (ha : a ≠ "")
    (lat lon : Rat) (sd ed : Option String) :
    ((lat < -90 ∨ lat > 90) →
      time_series host cv (.pstr a) lat lon sd ed =
        .error ⟨"ValueError", "latitude is out-of range!"⟩)
    ∧ (-90 ≤ lat → lat ≤ 90 → (lon < -180 ∨ lon > 180) →
      time_series host cv (.pstr a) lat lon sd ed =
        .error ⟨"ValueError", "longitude is out-of range!"⟩)
    ∧ (-90 ≤ lat → lat ≤ 90 → -180 ≤ lon → lon ≤ 180 →
      time_series host cv (.pstr a) lat lon sd ed =
        .ok (tsUri host cv a lat lon sd ed)) := by
  refine ⟨fun h => ?_, fun h1 h2 h => ?_, fun h1 h2 h3 h4 =>
    time_series_ok host cv _ _ hcv (truthy_pstr ha) rfl lat lon h1 h2 h3 h4 sd ed⟩
  · simp [time_series, hcv, truthy_pstr ha, joinAttributes, h]
  · have hlat : ¬(lat < -90 ∨ lat > 90) := by rintro (hx | hx) <;> linarith
    simp [time_series, hcv, truthy_pstr ha, joinAttributes, hlat, h]

theorem time_series_latlon_range_witness :
    time_series "h" "cv" (.pstr "red") (901/10) 0 none none =
      .error ⟨"ValueError", "latitude is out-of range!"⟩
    ∧ time_series "h" "cv" (.pstr "red") 90 (-1801/10) none none =
      .error ⟨"ValueError", "longitude is out-of range!"⟩
    ∧ time_series "h" "cv" (.pstr "red") 90 (-180) none none =
      .ok (tsUri "h" "cv" "red" 90 (-180) none none) :=
  ⟨(time_series_latlon_range "h" "cv" "red" (by decide) (by decide) (901/10) 0 none none).1
      (Or.inr (by norm_num)),
   (time_series_latlon_range "h" "cv" "red" (by decide) (by decide) 90 (-1801/10) none none).2.1
      (by norm_num) (by norm_num) (Or.inl (by norm_num)),
   (time_series_latlon_range "h" "cv" "red" (by decide) (by decide) 90 (-180) none none).2.2
      (by norm_num) (by norm_num) (by norm_num) (by norm_num)⟩

/-- C4: for a validated call, when both start_date and end_date are truthy
strings the query string is the base URI with start and end appended
verbatim; when exactly one of the two is truthy the query string is the
bare base URI, containing no start or end parameter. -/
theorem time_series_date_params (host cv a : String) (hcv : cv ≠ "") (ha : a ≠ "")
    (lat lon : Rat) (hlat₁ : -90 ≤ lat) (hlat₂ : lat ≤ 90)
    (hlon₁ : -180 ≤ lon) (hlon₂ : lon ≤ 180) (sd ed : Option String) :
    (∀ s e : String, sd = some s → s ≠ "" → ed = some e → e ≠ "" →
      time_series host cv (.pstr a) lat lon sd ed =
        .ok (tsBase host cv a lat lon ++ "&start=" ++ s ++ "&end=" ++ e))
    ∧ (truthyOpt sd ≠ truthyOpt ed →
      time_series host cv (.pstr a) lat lon sd ed = .ok (tsBase host cv a lat lon)) := by
  have base := time_series_ok host cv (.pstr a) a hcv (truthy_pstr ha) rfl
    lat lon hlat₁ hlat₂ hlon₁ hlon₂ sd ed
  constructor
  · intro s e hs hsne he hene
    subst hs
    subst he
    rw [base]
    simp [tsUri, truthyOpt, hsne, hene]
  · intro hne
    rw [base]
    cases hsd : truthyOpt sd <;> cases hed : truthyOpt ed <;>
      simp [tsUri, hsd, hed] <;> simp [hsd, hed] at hne

theorem time_series_date_params_witness :
    time_series "h" "cv" (.pstr "red") 0 0 (some "2020-01-01") (some "2020-02-01") =
      .ok (tsBase "h" "cv" "red" 0 0 ++ "&start=" ++ "2020-01-01" ++ "&end=" ++ "2020-02-01")
    ∧ time_series "h" "cv" (.pstr "red") 0 0 (some "2020-01-01") none =
      .ok (tsBase "h" "cv" "red" 0 0) :=
  ⟨(time_series_date_params "h" "cv" "red" (by decide) (by decide) 0 0
      (by norm_num) (by norm_num) (by norm_num) (by norm_num)
      (some "2020-01-01") (some "2020-02-01")).1
      "2020-01-01" "2020-02-01" rfl (by decide) rfl (by decide),
   (time_series_date_params "h" "cv" "red" (by decide) (by decide) 0 0
      (by norm_num) (by norm_num) (by norm_num) (by norm_num)
      (some "2020-01-01") none).2 (by decide)⟩

/-- One step of the lookup loop over well-shaped attribute records agrees
with a first-match search over the underlying name/payload pairs. -/
lemma valuesLoop_records (name : String) : ∀ recs : List (String × PyVal),
    valuesLoop name
      (recs.map fun r => PyVal.pdict [("attribute", .pstr r.1), ("values", r.2)]) =
      match recs.find? (fun r => r.1 == name) with
      | some r => .ok r.2
      | none => .error ⟨"ValueError",
          "Time series for attribute \x27" ++ name ++ "\x27 not found!"⟩ := by
  intro recs
  induction recs with
  | nil => rfl
  | cons r rs ih =>
    have h1 : subscriptStr (PyVal.pdict [("attribute", .pstr r.1), ("values", r.2)])
        "attribute" = .ok (.pstr r.1) := rfl
    have h2 : subscriptStr (PyVal.pdict [("attribute", .pstr r.1), ("values", r.2)])
        "values" = .ok r.2 := rfl
    rw [List.map_cons, valuesLoop, h1]
    simp only [pyEqStr, List.find?_cons]
    rcases Bool.eq_false_or_eq_true (r.1 == name) with h | h <;> simp [h, h2, ih]

/-- C5: on a document whose result.attributes is a sequence of records,
values returns the values field of the first record in order whose
attribute field equals the requested name (first match wins on duplicate
names), and raises ValueError "Time series for attribute '<name>' not
found!" when no record matches. -/
theorem values_first_match (recs : List (String × PyVal)) (name : String) :
    values (mkValuesDoc recs) name =
      match recs.find? (fun r => r.1 == name) with
      | some r => .ok r.2
      | none => .error ⟨"ValueError",
          "Time series for attribute \x27" ++ name ++ "\x27 not found!"⟩ := by
  have base : values (mkValuesDoc recs) name =
      valuesLoop name
        (recs.map fun r => PyVal.pdict [("attribute", .pstr r.1), ("values", r.2)]) := rfl
  rw [base, valuesLoop_records]

/-- The timeline comprehension succeeds on entries that all parse, yielding
the parses in input order. -/
lemma mapStrptime_all_some (fmt : String) : ∀ entries : List String,
    (∀ s ∈ entries, (strptime s fmt).isSome = true) →
    mapStrptime fmt (entries.map .pstr) = .ok (entries.filterMap fun s => strptime s fmt) := by
  intro entries
  induction entries with
  | nil => intro _; rfl
  | cons s ss ih =>
    intro h
    obtain ⟨d, hd⟩ := Option.isSome_iff_exists.mp (h s (by simp))
    rw [List.map_cons, List.filterMap_cons, hd]
    simp only [mapStrptime, hd, ih fun t ht => h t (by simp [ht])]

/-- A filterMap over a function defined on the whole list keeps the
length. -/
lemma length_filterMap_of_isSome {α β : Type} (f : α → Option β) : ∀ l : List α,
    (∀ a ∈ l, (f a).isSome = true) → (l.filterMap f).length = l.length := by
  intro l
  induction l with
  | nil => intro _; rfl
  | cons a as ih =>
    intro h
    obtain ⟨b, hb⟩ := Option.isSome_iff_exists.mp (h a (by simp))
    simp [List.filterMap_cons, hb, ih fun t ht => h t (by simp [ht])]

/-- The timeline comprehension raises the strptime ValueError of some
non-matching entry when one exists. -/
lemma mapStrptime_first_none (fmt : String) : ∀ entries : List String,
    (∃ s ∈ entries, strptime s fmt = none) →
    ∃ s ∈ entries, strptime s fmt = none ∧
      mapStrptime fmt (entries.map .pstr) = .error ⟨"ValueError", strptimeMsg s fmt⟩ := by
  intro entries
  induction entries with
  | nil => rintro ⟨s, hs, _⟩; simp at hs
  | cons s ss ih =>
    intro h
    cases hd : strptime s fmt with
    | none => exact ⟨s, by simp, hd, by simp [mapStrptime, hd]⟩
    | some d =>
      have hss : ∃ t ∈ ss, strptime t fmt = none := by
        obtain ⟨t, ht, htn⟩ := h
        rcases List.mem_cons.mp ht with h' | htss
        · subst h'; exact absurd htn (by simp [hd])
        · exact ⟨t, htss, htn⟩
      obtain ⟨t, ht, htn, herr⟩ := ih hss
      exact ⟨t, by simp [ht], htn, by simp [mapStrptime, hd, herr]⟩

/-- C6: on a document whose result.timeline entries all match the format
(a strftime pattern over the directives this client exercises, which is
what the supportedFmt hypothesis scopes the model to), timeline returns
the parsed dates in input order, one output date per input entry; when
some entry does not match, it raises the strptime ValueError for that
entry. -/
theorem timeline_parses_in_order (entries : List String) (fmt : String)
    (hsup : supportedFmt fmt.toList = true) :
    ((∀ s ∈ entries, (strptime s fmt).isSome = true) →
      timeline (mkTimelineDoc entries) fmt =
        .ok (entries.filterMap fun s => strptime s fmt)
      ∧ (entries.filterMap fun s => strptime s fmt).length = entries.length)
    ∧ ((∃ s ∈ entries, strptime s fmt = none) →
      ∃ s ∈ entries, strptime s fmt = none ∧
        timeline (mkTimelineDoc entries) fmt = .error ⟨"ValueError", strptimeMsg s fmt⟩) := by
  have base : timeline (mkTimelineDoc entries) fmt = mapStrptime fmt (entries.map .pstr) := rfl
  refine ⟨fun h => ⟨base.trans (mapStrptime_all_some fmt entries h),
    length_filterMap_of_isSome _ entries h⟩, fun h => ?_⟩
  obtain ⟨s, hs, hn, he⟩ := mapStrptime_first_none fmt entries h
  exact ⟨s, hs, hn, base.trans he⟩

theorem timeline_parses_in_order_witness :
    timeline (mkTimelineDoc ["2020-01-01", "2020-01-17"]) "%Y-%m-%d" =
      .ok [⟨2020, 1, 1⟩, ⟨2020, 1, 17⟩]
    ∧ (["2020-01-01", "2020-01-17"].filterMap fun s => strptime s "%Y-%m-%d").length =
      (["2020-01-01", "2020-01-17"] : List String).length :=
  (timeline_parses_in_order ["2020-01-01", "2020-01-17"] "%Y-%m-%d" rfl).1 (by decide)

/-- C10: on a document whose result.timeline is present but empty, timeline
returns the empty sequence for every format string, with no error. -/
theorem timeline_empty_ok (fmt : String) : timeline (mkTimelineDoc []) fmt = .ok [] := rfl

/-- True on the values the attributes type dispatch rejects: neither a
string nor a list nor a tuple. -/
def notStrListTuple : PyVal → Bool
  | .pstr _ => false
  | .plist _ => false
  | .ptuple _ => false
  | _ => true

/-- C7 as stated is false: a non-empty list whose element is not a string
passes the type dispatch and fails inside the comma join with a TypeError,
not with the InvalidArgument ValueError the claim announces. -/
theorem attributes_badshape_counterexample :
    time_series "h" "cv" (.plist [.pnum 1]) 0 0 none none =
      .error ⟨"TypeError", "sequence item 0: expected string"⟩
    ∧ (Except.error ⟨"TypeError", "sequence item 0: expected string"⟩ :
        Except PyError String) ≠
      .error ⟨"ValueError", "attributes must be a list, tuple or string"⟩ := by
  refine ⟨rfl, fun h => ?_⟩
  exact absurd (congrArg PyError.typ (Except.error.inj h)) (by decide)

/-- C7 amended: a truthy attributes argument that is neither a string nor a
list nor a tuple (a number, a mapping, ...) fails with ValueError
"attributes must be a list, tuple or string"; a list or tuple containing a
non-string element instead raises the TypeError of the join (see the
counterexample). -/
theorem attributes_bad_type_message (host cv : String) (hcv : cv ≠ "") (v : PyVal)
    (hv : truthy v = true) (hshape : notStrListTuple v = true)
    (lat lon : Rat) (sd ed : Option String) :
    time_series host cv v lat lon sd ed =
      .error ⟨"ValueError", "attributes must be a list, tuple or string"⟩ := by
  cases v with
  | pnum n => simp [time_series, hcv, hv, joinAttributes]
  | pdict l => simp [time_series, hcv, hv, joinAttributes]
  | pnone => simp [truthy] at hv
  | pstr s => simp [notStrListTuple] at hshape
  | plist l => simp [notStrListTuple] at hshape
  | ptuple l => simp [notStrListTuple] at hshape

theorem attributes_bad_type_message_witness :
    time_series "h" "cv" (.pnum 1) 0 0 none none =
      .error ⟨"ValueError", "attributes must be a list, tuple or string"⟩ :=
  attributes_bad_type_message "h" "cv" (by decide) (.pnum 1) rfl rfl 0 0 none none

/-- C9 as stated is false: InvalidArgument (here the validation failure of
time_series) and NotFound (the lookup miss of values) are distinct kinds of
the taxonomy, yet both surface as the same Python exception class
ValueError, so the caller cannot tell them apart as error values. -/
theorem error_kinds_counterexample :
    time_series "h" "" (.pstr "red") 0 0 none none =
      .error ⟨surfacedExcType .invalidArgument, "Missing coverage name."⟩
    ∧ values (mkValuesDoc [("red", .plist [.pnum 1])]) "nir" =
      .error ⟨surfacedExcType .notFound,
        "Time series for attribute \x27nir\x27 not found!"⟩
    ∧ surfacedExcType .invalidArgument = surfacedExcType .notFound
    ∧ ErrorKind.invalidArgument ≠ ErrorKind.notFound :=
  ⟨rfl, rfl, rfl, by decide⟩

/-- C9 amended: the six kinds are not mutually distinguishable;
InvalidArgument, DecodeError, ParseError and NotFound all surface as
ValueError (told apart only by message text), while NetworkError (URLError)
and SchemaError (KeyError) are distinguishable from each other and from the
ValueError kinds by exception class. -/
theorem error_kinds_partition :
    surfacedExcType .invalidArgument = "ValueError"
    ∧ surfacedExcType .decodeError = "ValueError"
    ∧ surfacedExcType .parseError = "ValueError"
    ∧ surfacedExcType .notFound = "ValueError"
    ∧ surfacedExcType .networkError = "URLError"
    ∧ surfacedExcType .schemaError = "KeyError"
    ∧ surfacedExcType .networkError ≠ surfacedExcType .invalidArgument
    ∧ surfacedExcType .schemaError ≠ surfacedExcType .invalidArgument
    ∧ surfacedExcType .networkError ≠ surfacedExcType .schemaError
    ∧ timeline (mkTimelineDoc ["bad"]) "%Y-%m-%d" =
      .error ⟨surfacedExcType .parseError, strptimeMsg "bad" "%Y-%m-%d"⟩
    ∧ values (.pdict []) "red" = .error ⟨surfacedExcType .schemaError, "\x27result\x27"⟩ := by
  refine ⟨rfl, rfl, rfl, rfl, rfl, rfl, by decide, by decide, by decide, rfl, rfl⟩

/-! ### Query-string round-trip -/

/-- Rebuilding a string from its character list is the identity. -/
lemma mk_toList (s : String) : String.mk s.toList = s := by cases s; rfl

/-- Appending strings concatenates their character lists. -/
lemma toList_append (s t : String) : (s ++ t).toList = s.toList ++ t.toList :=
  String.data_append s t

/-- afterChar finds the first occurrence of the separator. -/
lemma afterChar_append (c : Char) : ∀ l1 l2 : List Char, c ∉ l1 →
    afterChar c (l1 ++ c :: l2) = some l2 := by
  intro l1
  induction l1 with
  | nil => intro l2 _; simp [afterChar]
  | cons x xs ih =>
    intro l2 h
    have hx : x ≠ c := fun he => h (he ▸ List.mem_cons_self x xs)
    simp [afterChar, hx, ih l2 fun hm => h (List.mem_cons_of_mem x hm)]

/-- Splitting a list free of the separator yields that list alone. -/
lemma splitOnChar_not_mem (c : Char) : ∀ l : List Char, c ∉ l → splitOnChar c l = [l] := by
  intro l
  induction l with
  | nil => intro _; rfl
  | cons x xs ih =>
    intro h
    have hx : x ≠ c := fun he => h (he ▸ List.mem_cons_self x xs)
    simp [splitOnChar, hx, ih fun hm => h (List.mem_cons_of_mem x hm)]

/-- Splitting peels off a separator-free prefix as the first piece. -/
lemma splitOnChar_append (c : Char) : ∀ l1 l2 : List Char, c ∉ l1 →
    splitOnChar c (l1 ++ c :: l2) = l1 :: splitOnChar c l2 := by
  intro l1
  induction l1 with
  | nil => intro l2 _; simp [splitOnChar]
  | cons x xs ih =>
    intro l2 h
    have hx : x ≠ c := fun he => h (he ▸ List.mem_cons_self x xs)
    simp [splitOnChar, hx, ih l2 fun hm => h (List.mem_cons_of_mem x hm)]

/-- Key/value splitting at the first equals sign. -/
lemma splitKV_append : ∀ k v : List Char, '=' ∉ k → splitKV (k ++ '=' :: v) = (k, v) := by
  intro k
  induction k with
  | nil => intro v _; simp [splitKV]
  | cons x xs ih =>
    intro v h
    have hx : x ≠ '=' := fun he => h (he ▸ List.mem_cons_self x xs)
    simp [splitKV, hx, ih v fun hm => h (List.mem_cons_of_mem x hm)]

/-- Decoding is the identity on text free of escapes and plus signs. -/
lemma percentPlusDecode_id (l : List Char) (h : ∀ x ∈ l, x ≠ '%' ∧ x ≠ '+') :
    percentPlusDecode l = l := by
  induction l using percentPlusDecode.induct with
  | case1 => rfl
  | case2 rest ih => exact absurd (h '+' (by simp)).2 (by simp)
  | case3 a b rest x y hx hy ih => exact absurd (h '%' (by simp)).1 (by simp)
  | case4 a b rest hm ih => exact absurd (h '%' (by simp)).1 (by simp)
  | case5 c rest hc h2 ih =>
    have hr : ∀ x ∈ rest, x ≠ '%' ∧ x ≠ '+' := fun x hx => h x (by simp [hx])
    have step : percentPlusDecode (c :: rest) = c :: percentPlusDecode rest := by
      rw [percentPlusDecode.eq_def]
      split <;> simp_all
    rw [step, ih hr]

/-- Standard decoding of the first query parameter of a URI whose character
list decomposes as host part, question mark, key, equals sign, value and a
rest that is absent or starts at an ampersand: it recovers the value
exactly when the value contains no ampersand, percent or plus. -/
lemma decodeQueryParam_of_toList (uri key_s name : String) (pre key post : List Char)
    (huri : uri.toList = pre ++ ('?' :: (key ++ ('=' :: (name.toList ++ post)))))
    (hkey : key_s.toList = key)
    (hpre : '?' ∉ pre) (hkeyEq : '=' ∉ key) (hkeyAmp : '&' ∉ key)
    (hname : ∀ x ∈ name.toList, x ≠ '&' ∧ x ≠ '%' ∧ x ≠ '+')
    (hpost : post = [] ∨ ∃ r, post = '&' :: r) :
    decodeQueryParam uri key_s = some name := by
  have hdec : percentPlusDecode name.data = name.data :=
    percentPlusDecode_id _ fun x hx => ⟨(hname x hx).2.1, (hname x hx).2.2⟩
  have hpiece : '&' ∉ key ++ ('=' :: name.toList) := by
    intro hm
    rcases List.mem_append.mp hm with hk | hv
    · exact hkeyAmp hk
    · rcases List.mem_cons.mp hv with he | hn
      · exact absurd he (by decide)
      · exact (hname _ hn).1 rfl
  unfold decodeQueryParam
  rw [huri, hkey, afterChar_append _ _ _ hpre]
  simp only [Option.some_bind]
  rcases hpost with rfl | ⟨r, rfl⟩
  · rw [List.append_nil, splitOnChar_not_mem _ _ hpiece]
    simp [findParamValue, splitKV_append _ _ hkeyEq]
    rw [hdec]
  · have hassoc : key ++ ('=' :: (name.toList ++ ('&' :: r))) =
        (key ++ ('=' :: name.toList)) ++ ('&' :: r) := by
      simp [List.append_assoc]
    rw [hassoc, splitOnChar_append _ _ _ hpiece]
    simp [findParamValue, splitKV_append _ _ hkeyEq]
    rw [hdec]

/-- The character list of the time_series URI (with any trailing text)
decomposed at its question mark and coverage parameter. -/
lemma tsBase_decomp (host cv attrStr : String) (lat lon : Rat) (extra : String) :
    (tsBase host cv attrStr lat lon ++ extra).toList =
      (host.toList ++ "/wtss/time_series".toList) ++
        ('?' :: ("coverage".toList ++ ('=' :: (cv.toList ++
          ('&' :: ("attributes=" ++ attrStr ++ "&latitude=" ++ formatFixed6 lat ++
            "&longitude=" ++ formatFixed6 lon ++ extra).toList))))) := by
  have hlit : "/wtss/time_series?coverage=".toList =
      "/wtss/time_series".toList ++ ('?' :: ("coverage".toList ++ ['='])) := by decide
  have hamp : "&attributes=".toList = '&' :: "attributes=".toList := by decide
  simp [tsBase, toList_append, hlit, hamp, List.append_assoc]

/-- The coverage parameter decoded from the URI a validated time_series
call requests, for a hostile-character-free coverage name. -/
lemma decode_coverage_tsUri (host name attrStr : String) (lat lon : Rat)
    (sd ed : Option String) (hhost : '?' ∉ host.toList)
    (hname : ∀ x ∈ name.toList, x ≠ '&' ∧ x ≠ '%' ∧ x ≠ '+') :
    decodeQueryParam (tsUri host name attrStr lat lon sd ed) "coverage" = some name := by
  obtain ⟨extra, hx⟩ : ∃ extra, tsUri host name attrStr lat lon sd ed =
      tsBase host name attrStr lat lon ++ extra := by
    unfold tsUri
    split
    · exact ⟨"&start=" ++ sd.getD "" ++ "&end=" ++ ed.getD "", by
        simp [String.append_assoc]⟩
    · exact ⟨"", by simp⟩
  rw [hx]
  refine decodeQueryParam_of_toList _ _ _ (host.toList ++ "/wtss/time_series".toList)
    ("coverage".toList) _ (tsBase_decomp host name attrStr lat lon extra) rfl ?_
    (by decide) (by decide) hname (Or.inr ⟨_, rfl⟩)
  intro hm
  rcases List.mem_append.mp hm with hh | hl
  · exact hhost hh
  · exact absurd hl (by decide)

/-- C8 as stated is false: the reference percent-encodes nothing, so a
coverage name containing an ampersand is truncated at the ampersand by
standard query decoding and the round trip loses it. -/
theorem roundtrip_counterexample :
    decodeQueryParam (describe_coverage "h" "a&b") "name" = some "a"
    ∧ time_series "h" "a&b" (.pstr "red") 0 0 none none =
      .ok "h/wtss/time_series?coverage=a&b&attributes=red&latitude=0.000000&longitude=0.000000"
    ∧ decodeQueryParam
        "h/wtss/time_series?coverage=a&b&attributes=red&latitude=0.000000&longitude=0.000000"
        "coverage" = some "a"
    ∧ ("a" : String) ≠ "a&b" :=
  ⟨rfl, rfl, rfl, by decide⟩

/-- C8 amended: without percent-encoding, the round trip preserves exactly
the coverage names free of the reserved characters ampersand, percent and
plus (spaces, in particular, survive); a name containing an ampersand is
truncated (see the counterexample). -/
theorem roundtrip_amended (host name : String)
    (hhost : '?' ∉ host.toList)
    (hname : ∀ x ∈ name.toList, x ≠ '&' ∧ x ≠ '%' ∧ x ≠ '+') :
    decodeQueryParam (describe_coverage host name) "name" = some name
    ∧ ∀ (a : String) (lat lon : Rat) (sd ed : Option String) (u : String),
        time_series host name (.pstr a) lat lon sd ed = .ok u →
        decodeQueryParam u "coverage" = some name := by
  constructor
  · refine decodeQueryParam_of_toList _ _ _
      (host.toList ++ "/wtss/describe_coverage".toList) ("name".toList) [] ?_ rfl ?_
      (by decide) (by decide) hname (Or.inl rfl)
    · have hlit : "/wtss/describe_coverage?name=".toList =
          "/wtss/describe_coverage".toList ++ ('?' :: ("name".toList ++ ['='])) := by decide
      simp [describe_coverage, toList_append, hlit, List.append_assoc]
    · intro hm
      rcases List.mem_append.mp hm with hh | hl
      · exact hhost hh
      · exact absurd hl (by decide)
  · intro a lat lon sd ed u h
    simp only [time_series, joinAttributes] at h
    split at h
    · exact absurd h (by simp)
    · split at h
      · exact absurd h (by simp)
      · split at h
        · exact absurd h (by simp)
        · split at h
          · exact absurd h (by simp)
          · rw [← Except.ok.inj h]
            exact decode_coverage_tsUri host name a lat lon sd ed hhost hname

theorem roundtrip_amended_witness :
    decodeQueryParam (describe_coverage "h" "a b") "name" = some "a b"
    ∧ decodeQueryParam
        "h/wtss/time_series?coverage=a b&attributes=red&latitude=0.000000&longitude=0.000000"
        "coverage" = some "a b" :=
  ⟨(roundtrip_amended "h" "a b" (by decide) (by decide)).1,
   (roundtrip_amended "h" "a b" (by decide) (by decide)).2 "red" 0 0 none none
     "h/wtss/time_series?coverage=a b&attributes=red&latitude=0.000000&longitude=0.000000" rfl⟩

end Wtss
